/-
Verification of the LIRIA book-ingestion pipeline (src/scripts/ingestBooks.js).

Shallow embedding conventions:
  * A JS value that may be `null`/`undefined` is an `Option`; `none` models a
    nullish (absent) field.  JS `a ?? b` becomes `Option.getD` / `Option.orElse`,
    and the optional-chain `xs?.[0]` becomes `Option.bind xs List.head?`.
  * A template literal `${v}` renders a nullish value as the string
    "undefined", which `jsTemplate` reproduces for the absent-field case.
  * A rejected promise / thrown exception is `Except.error ()`;
    `Promise.all` of two promises is `promiseAll2` (an error in either
    rejects the pair).
  * `JSON.stringify(v, null, 2)` is modelled by the `booksJson` serializer.
-/
import Mathlib

set_option autoImplicit false

namespace Liria

/-- Raw OpenLibrary search document (the fields `normalizeOpenLibraryDoc`
reads); every field may be absent. -/
structure OLDoc where
  key : Option String
  cover_edition_key : Option String
  isbn : Option (List String)
  title : Option String
  author_name : Option (List String)
  subject : Option (List String)
  first_publish_year : Option Int
  deriving Repr, DecidableEq

/-- A Google Books industry identifier entry (kept opaquely, as the source
does); `idType` models the JS field named `type`. -/
structure GIndustryId where
  idType : Option String
  identifier : Option String
  deriving Repr, DecidableEq

/-- Raw Google Books `volumeInfo` substructure (the fields
`normalizeGoogleVolume` reads); every field may be absent. -/
structure GVolumeInfo where
  title : Option String
  authors : Option (List String)
  description : Option String
  categories : Option (List String)
  industryIdentifiers : Option (List GIndustryId)
  publishedDate : Option String
  deriving Repr, DecidableEq

/-- Raw Google Books volume item. -/
structure GItem where
  id : Option String
  volumeInfo : Option GVolumeInfo
  deriving Repr, DecidableEq

/-- Provider-specific auxiliary identifiers, preserved opaquely
(`identifiers` field of the normalized record). -/
inductive Identifiers where
  | openlibrary (openlibrary_key : Option String) (isbn : List String)
  | google (google_id : Option String) (industryIdentifiers : List GIndustryId)
  deriving Repr, DecidableEq

/-- Normalized, provider-agnostic book record.  `publishedYear` is
`Sum.inl` for OpenLibrary's numeric year and `Sum.inr` for Google Books'
raw date string; `none` models JS `null`. -/
structure CatalogRecord where
  id : String
  source : String
  title : String
  authors : List String
  description : String
  categories : List String
  identifiers : Identifiers
  publishedYear : Option (Int ⊕ String)
  deriving Repr, DecidableEq

/-- Rendering of a possibly-nullish string inside a JS template literal:
an absent value prints as "undefined". -/
def jsTemplate : Option String → String
  | some s => s
  | none => "undefined"

/-- The `??`-chain `doc.key ?? doc.cover_edition_key ?? doc.isbn?.[0] ?? doc.title`:
first non-nullish value wins. -/
def olNativeId (doc : OLDoc) : Option String :=
  ((doc.key.orElse fun _ => doc.cover_edition_key).orElse fun _ =>
    doc.isbn.bind List.head?).orElse fun _ => doc.title

/-- `normalizeOpenLibraryDoc` from src/scripts/ingestBooks.js. -/
def normalizeOpenLibraryDoc (doc : OLDoc) : CatalogRecord :=
  { id := "openlibrary:" ++ jsTemplate (olNativeId doc)
    source := "openlibrary"
    title := doc.title.getD ""
    authors := doc.author_name.getD []
    description := ""
    categories := doc.subject.getD []
    identifiers := Identifiers.openlibrary doc.key (doc.isbn.getD [])
    publishedYear := doc.first_publish_year.map Sum.inl }

/-- The empty object `{}` that `item.volumeInfo ?? {}` defaults to. -/
def emptyVolumeInfo : GVolumeInfo :=
  { title := none, authors := none, description := none, categories := none
    industryIdentifiers := none, publishedDate := none }

/-- `normalizeGoogleVolume` from src/scripts/ingestBooks.js. -/
def normalizeGoogleVolume (item : GItem) : CatalogRecord :=
  let info := item.volumeInfo.getD emptyVolumeInfo
  { id := "google:" ++ jsTemplate item.id
    source := "google_books"
    title := info.title.getD ""
    authors := info.authors.getD []
    description := info.description.getD ""
    categories := info.categories.getD []
    identifiers := Identifiers.google item.id (info.industryIdentifiers.getD [])
    publishedYear := info.publishedDate.map Sum.inr }

/-- `LIMIT_PER_QUERY_PER_SOURCE` from the config section. -/
def LIMIT_PER_QUERY_PER_SOURCE : Nat := 10

/-- OpenLibrary search response body (`json.docs` may be absent). -/
structure OLResponse where
  docs : Option (List OLDoc)
  deriving Repr, DecidableEq

/-- Google Books search response body (`json.items` may be absent). -/
structure GBResponse where
  items : Option (List GItem)
  deriving Repr, DecidableEq

/-- `Promise.all` on two promises: if either rejects, the pair rejects. -/
def promiseAll2 {α β : Type} :
    Except Unit α → Except Unit β → Except Unit (α × β)
  | Except.error e, _ => Except.error e
  | Except.ok _, Except.error e => Except.error e
  | Except.ok a, Except.ok b => Except.ok (a, b)

/-- `ingestFromOpenLibrary`: the fetch outcome (`Except.error` models a
thrown `fetchJson`, i.e. a network error or non-ok HTTP status), then
`(json.docs ?? []).slice(0, LIMIT).map(normalizeOpenLibraryDoc)`. -/
def ingestFromOpenLibrary (r : Except Unit OLResponse) :
    Except Unit (List CatalogRecord) :=
  r.map fun json =>
    ((json.docs.getD []).take LIMIT_PER_QUERY_PER_SOURCE).map normalizeOpenLibraryDoc

/-- `ingestFromGoogleBooks`: same shape for the Google Books provider. -/
def ingestFromGoogleBooks (r : Except Unit GBResponse) :
    Except Unit (List CatalogRecord) :=
  r.map fun json =>
    ((json.items.getD []).take LIMIT_PER_QUERY_PER_SOURCE).map normalizeGoogleVolume

/-- One query's upstream input: the fetch outcome of each provider
(OpenLibrary first, Google Books second). -/
abbrev QueryInput : Type := Except Unit OLResponse × Except Unit GBResponse

/-- The body of `for (const book of [...openLibBooks, ...googleBooks])`:
skip a blank title, skip an already-seen id, otherwise record the id as
seen and append the book.  State is `(seenIds, allBooks)`. -/
def dedupeInto (seen : List String) (books : List CatalogRecord) :
    List CatalogRecord → List String × List CatalogRecord
  | [] => (seen, books)
  | b :: rest =>
    if b.title = "" then dedupeInto seen books rest
    else if b.id ∈ seen then dedupeInto seen books rest
    else dedupeInto (b.id :: seen) (books ++ [b]) rest

/-- One iteration of the `for (const query of SEARCH_QUERIES)` loop:
`Promise.all` of the two ingests inside `try`; on rejection the `catch`
logs and leaves the accumulators unchanged. -/
def processQuery (st : List String × List CatalogRecord) (inp : QueryInput) :
    List String × List CatalogRecord :=
  match promiseAll2 (ingestFromOpenLibrary inp.1) (ingestFromGoogleBooks inp.2) with
  | Except.error _ => st
  | Except.ok (openLibBooks, googleBooks) =>
      dedupeInto st.1 st.2 (openLibBooks ++ googleBooks)

/-- The accumulation phase of `main`: fold the query loop over the run's
per-query provider responses, starting from an empty seen-set and output
list, and return the final `allBooks`. -/
def runQueries (inputs : List QueryInput) : List CatalogRecord :=
  (inputs.foldl processQuery ([], [])).2

/-- The standalone filter-and-dedupe step (the loop body run from fresh
accumulators over one record list). -/
def dedupeStep (xs : List CatalogRecord) : List CatalogRecord :=
  (dedupeInto [] [] xs).2

/-- The arrival order consumed by the deduplicator: queries in issue
order; within a query, OpenLibrary records before Google Books records;
a query whose `Promise.all` rejected contributes nothing. -/
def arrivalList (inputs : List QueryInput) : List CatalogRecord :=
  inputs.flatMap fun inp =>
    match promiseAll2 (ingestFromOpenLibrary inp.1) (ingestFromGoogleBooks inp.2) with
    | Except.error _ => []
    | Except.ok (openLibBooks, googleBooks) => openLibBooks ++ googleBooks

/-- An indentation of `n` spaces. -/
def spaces (n : Nat) : String := String.mk (List.replicate n ' ')

/-- One lowercase hexadecimal digit (for `\uNNNN` escapes). -/
def jsonHexDigit (n : Nat) : Char :=
  if n < 10 then Char.ofNat ('0'.toNat + n) else Char.ofNat ('a'.toNat + n - 10)

/-- The escape `JSON.stringify` applies to one character of a string. -/
def jsonEscChar (c : Char) : String :=
  if c = '"' then "\\\""
  else if c = '\\' then "\\\\"
  else if c = Char.ofNat 8 then "\\b"
  else if c = Char.ofNat 9 then "\\t"
  else if c = Char.ofNat 10 then "\\n"
  else if c = Char.ofNat 12 then "\\f"
  else if c = Char.ofNat 13 then "\\r"
  else if c.toNat < 32 then
    "\\u00" ++ String.mk [jsonHexDigit (c.toNat / 16), jsonHexDigit (c.toNat % 16)]
  else String.singleton c

/-- A JSON string literal with escapes. -/
def jsonStr (s : String) : String :=
  "\"" ++ String.join (s.data.map jsonEscChar) ++ "\""

/-- A JSON array of strings, pretty-printed at indentation `ind` the way
`JSON.stringify(v, null, 2)` prints it. -/
def jsonStrArray (ind : Nat) : List String → String
  | [] => "[]"
  | xs =>
    "[\n" ++ String.intercalate ",\n" (xs.map fun s => spaces (ind + 2) ++ jsonStr s)
      ++ "\n" ++ spaces ind ++ "]"

/-- A JSON object from pre-rendered entries; an entry whose value is
`none` models a JS `undefined` property, which `JSON.stringify` omits. -/
def jsonObj (ind : Nat) (entries : List (String × Option String)) : String :=
  match entries.filterMap fun e => e.2.map fun v => spaces (ind + 2) ++ jsonStr e.1 ++ ": " ++ v with
  | [] => "\x7b\x7d"
  | es => "\x7b\n" ++ String.intercalate ",\n" es ++ "\n" ++ spaces ind ++ "\x7d"

/-- One Google Books industry-identifier object. -/
def gIndustryIdJson (ind : Nat) (x : GIndustryId) : String :=
  jsonObj ind [("type", x.idType.map jsonStr), ("identifier", x.identifier.map jsonStr)]

/-- The array of industry-identifier objects. -/
def gIndustryIdArray (ind : Nat) : List GIndustryId → String
  | [] => "[]"
  | xs =>
    "[\n" ++ String.intercalate ",\n" (xs.map fun x => spaces (ind + 2) ++ gIndustryIdJson (ind + 2) x)
      ++ "\n" ++ spaces ind ++ "]"

/-- The provider-specific `identifiers` object. -/
def identifiersJson (ind : Nat) : Identifiers → String
  | Identifiers.openlibrary k isbn =>
      jsonObj ind [("openlibrary_key", k.map jsonStr), ("isbn", some (jsonStrArray (ind + 2) isbn))]
  | Identifiers.google gid iids =>
      jsonObj ind [("google_id", gid.map jsonStr),
                   ("industryIdentifiers", some (gIndustryIdArray (ind + 2) iids))]

/-- The `publishedYear` value: `null`, a number, or a raw date string. -/
def pubYearJson : Option (Int ⊕ String) → String
  | none => "null"
  | some (Sum.inl n) => toString n
  | some (Sum.inr s) => jsonStr s

/-- One normalized record as a JSON object at indentation `ind`. -/
def recordJson (ind : Nat) (r : CatalogRecord) : String :=
  jsonObj ind
    [("id", some (jsonStr r.id)),
     ("source", some (jsonStr r.source)),
     ("title", some (jsonStr r.title)),
     ("authors", some (jsonStrArray (ind + 2) r.authors)),
     ("description", some (jsonStr r.description)),
     ("categories", some (jsonStrArray (ind + 2) r.categories)),
     ("identifiers", some (identifiersJson (ind + 2) r.identifiers)),
     ("publishedYear", some (pubYearJson r.publishedYear))]

/-- `JSON.stringify(allBooks, null, 2)`: the serialized output artifact. -/
def booksJson : List CatalogRecord → String
  | [] => "[]"
  | books =>
    "[\n" ++ String.intercalate ",\n" (books.map fun r => spaces 2 ++ recordJson 2 r)
      ++ "\n]"

/-- The bits of filesystem state `main` touches: whether the data
directory exists, and the content of `data/books.json` (`none` when the
file does not exist). -/
structure DataDirState where
  dirExists : Bool
  booksFile : Option String
  deriving Repr, DecidableEq

/-- `ensureDataDir`: `mkdirSync` if the directory is missing, a no-op
otherwise. -/
def ensureDataDir (fs : DataDirState) : DataDirState :=
  if fs.dirExists then fs else { fs with dirExists := true }

/-- `fs.writeFileSync(OUTPUT_FILE, content)`: replaces the file's content
wholesale, whatever was there before. -/
def writeFileSync (content : String) (fs : DataDirState) : DataDirState :=
  { fs with booksFile := some content }

/-- `main` as a state transformer on the touched filesystem state: ensure
the data directory, accumulate the deduplicated collection, serialize it
and write it out. -/
def runMain (inputs : List QueryInput) (fs : DataDirState) : DataDirState :=
  writeFileSync (booksJson (runQueries inputs)) (ensureDataDir fs)

/-- The invariant the accumulators maintain: every collected id is in the
seen-set, collected ids are pairwise distinct, and no collected title is
blank. -/
abbrev CleanState (st : List String × List CatalogRecord) : Prop :=
  (∀ r ∈ st.2, r.id ∈ st.1) ∧ (st.2.map CatalogRecord.id).Nodup ∧
    ∀ r ∈ st.2, r.title ≠ ""

theorem dedupeInto_clean (xs : List CatalogRecord) :
    ∀ seen books, CleanState (seen, books) → CleanState (dedupeInto seen books xs) := by
  induction xs with
  | nil => intro seen books h; exact h
  | cons b rest ih =>
    intro seen books h
    obtain ⟨hmem, hnd, htl⟩ := h
    simp only [dedupeInto]
    by_cases h1 : b.title = ""
    · rw [if_pos h1]; exact ih seen books ⟨hmem, hnd, htl⟩
    · rw [if_neg h1]
      by_cases h2 : b.id ∈ seen
      · rw [if_pos h2]; exact ih seen books ⟨hmem, hnd, htl⟩
      · rw [if_neg h2]
        apply ih
        refine ⟨?_, ?_, ?_⟩
        · intro r hr
          rcases List.mem_append.mp hr with h | h
          · exact List.mem_cons_of_mem _ (hmem r h)
          · rw [List.mem_singleton.mp h]; exact List.mem_cons_self _ _
        · rw [List.map_append]
          apply List.Nodup.append hnd (List.nodup_singleton _)
          intro a ha hb
          rw [List.mem_singleton.mp hb] at ha
          obtain ⟨r, hr, hrid⟩ := List.mem_map.mp ha
          exact h2 (hrid ▸ hmem r hr)
        · intro r hr
          rcases List.mem_append.mp hr with h | h
          · exact htl r h
          · rw [List.mem_singleton.mp h]; exact h1

theorem foldl_processQuery_clean (inputs : List QueryInput) :
    ∀ st, CleanState st → CleanState (inputs.foldl processQuery st) := by
  induction inputs with
  | nil => intro st h; exact h
  | cons inp rest ih =>
    intro st h
    rw [List.foldl_cons]
    apply ih
    unfold processQuery
    cases hp : promiseAll2 (ingestFromOpenLibrary inp.1) (ingestFromGoogleBooks inp.2) with
    | error e => exact h
    | ok p => obtain ⟨ol, gb⟩ := p; exact dedupeInto_clean _ _ _ h

theorem cleanState_nil : CleanState ([], []) :=
  ⟨fun r hr => absurd hr (List.not_mem_nil r), List.nodup_nil,
   fun r hr => absurd hr (List.not_mem_nil r)⟩

/-- C3: the output collection of a run contains no two records with the
same `id` — the list of `id`s over the final `allBooks` has no duplicate. -/
theorem runQueries_ids_nodup (inputs : List QueryInput) :
    ((runQueries inputs).map CatalogRecord.id).Nodup :=
  (foldl_processQuery_clean inputs ([], []) cleanState_nil).2.1

/-- C4: a record with a blank title is never present in the final output
collection, whichever provider it came from. -/
theorem runQueries_titles_nonempty (inputs : List QueryInput) (r : CatalogRecord)
    (hr : r ∈ runQueries inputs) : r.title ≠ "" :=
  (foldl_processQuery_clean inputs ([], []) cleanState_nil).2.2 r hr

/-- A Google Books item carrying a non-blank title. -/
def w4Item : GItem :=
  { id := some "g4", volumeInfo := some { emptyVolumeInfo with title := some "Dune" } }

/-- A query input where OpenLibrary returns nothing and Google Books
returns `w4Item`. -/
def w4Input : QueryInput :=
  (Except.ok { docs := some [] }, Except.ok { items := some [w4Item] })

/-- Witness for C4 at a concrete run containing one accepted record. -/
theorem runQueries_titles_nonempty_witness :
    normalizeGoogleVolume w4Item ∈ runQueries [w4Input] ∧
      (normalizeGoogleVolume w4Item).title ≠ "" := by
  have h : runQueries [w4Input] = [normalizeGoogleVolume w4Item] := rfl
  have hmem : normalizeGoogleVolume w4Item ∈ runQueries [w4Input] := by
    rw [h]; exact List.mem_singleton.mpr rfl
  exact ⟨hmem, runQueries_titles_nonempty [w4Input] _ hmem⟩

theorem dedupeInto_id_of_clean (xs : List CatalogRecord) :
    ∀ seen books, (∀ r ∈ xs, r.title ≠ "") → (xs.map CatalogRecord.id).Nodup →
      (∀ r ∈ xs, r.id ∉ seen) → (dedupeInto seen books xs).2 = books ++ xs := by
  induction xs with
  | nil => intro seen books _ _ _; simp [dedupeInto]
  | cons b rest ih =>
    intro seen books ht hnd hs
    have hb : b.title ≠ "" := ht b (List.mem_cons_self b rest)
    have hbs : b.id ∉ seen := hs b (List.mem_cons_self b rest)
    simp only [dedupeInto, if_neg hb, if_neg hbs]
    rw [ih (b.id :: seen) (books ++ [b])
      (fun r hr => ht r (List.mem_cons_of_mem b hr))
      (List.Nodup.of_cons hnd)
      ?_]
    · simp
    · intro r hr hmem
      rcases List.mem_cons.mp hmem with h | h
      · have : b.id ∈ rest.map CatalogRecord.id := List.mem_map.mpr ⟨r, hr, h⟩
        rw [List.map_cons] at hnd
        exact (List.nodup_cons.mp hnd).1 this
      · exact hs r (List.mem_cons_of_mem b hr) h

/-- C9: the filter-and-dedupe step is idempotent — applying it to its own
output leaves that output unchanged. -/
theorem dedupeStep_idempotent (xs : List CatalogRecord) :
    dedupeStep (dedupeStep xs) = dedupeStep xs := by
  have h := dedupeInto_clean xs [] [] cleanState_nil
  show (dedupeInto [] [] (dedupeStep xs)).2 = dedupeStep xs
  rw [dedupeInto_id_of_clean (dedupeStep xs) [] [] h.2.2 h.2.1
    (fun r _ hmem => absurd hmem (List.not_mem_nil r.id))]
  simp

theorem dedupeInto_append (xs ys : List CatalogRecord) :
    ∀ seen books, dedupeInto seen books (xs ++ ys) =
      dedupeInto (dedupeInto seen books xs).1 (dedupeInto seen books xs).2 ys := by
  induction xs with
  | nil => intro seen books; rfl
  | cons b rest ih =>
    intro seen books
    simp only [List.cons_append, dedupeInto, List.append_eq]
    by_cases h1 : b.title = ""
    · rw [if_pos h1, if_pos h1, ih]
    · rw [if_neg h1, if_neg h1]
      by_cases h2 : b.id ∈ seen
      · rw [if_pos h2, if_pos h2, ih]
      · rw [if_neg h2, if_neg h2, ih]

theorem foldl_eq_dedupeInto_arrival (inputs : List QueryInput) :
    ∀ st : List String × List CatalogRecord,
      inputs.foldl processQuery st = dedupeInto st.1 st.2 (arrivalList inputs) := by
  induction inputs with
  | nil => intro st; simp [arrivalList, dedupeInto]
  | cons inp rest ih =>
    intro st
    rw [List.foldl_cons, ih (processQuery st inp)]
    have harr : arrivalList (inp :: rest) =
        (match promiseAll2 (ingestFromOpenLibrary inp.1) (ingestFromGoogleBooks inp.2) with
          | Except.error _ => []
          | Except.ok (ol, gb) => ol ++ gb) ++ arrivalList rest := by
      simp [arrivalList]
    rw [harr]
    cases hp : promiseAll2 (ingestFromOpenLibrary inp.1) (ingestFromGoogleBooks inp.2) with
    | error e =>
      simp only [processQuery, hp, List.nil_append]
    | ok p =>
      obtain ⟨ol, gb⟩ := p
      simp only [processQuery, hp]
      rw [dedupeInto_append (ol ++ gb) (arrivalList rest) st.1 st.2]

theorem dedupeInto_sublist (xs : List CatalogRecord) :
    ∀ seen books, ∃ t, (dedupeInto seen books xs).2 = books ++ t ∧ List.Sublist t xs := by
  induction xs with
  | nil => intro seen books; exact ⟨[], by simp [dedupeInto], List.nil_sublist []⟩
  | cons b rest ih =>
    intro seen books
    simp only [dedupeInto]
    by_cases h1 : b.title = ""
    · rw [if_pos h1]
      obtain ⟨t, ht, hs⟩ := ih seen books
      exact ⟨t, ht, List.Sublist.cons b hs⟩
    · rw [if_neg h1]
      by_cases h2 : b.id ∈ seen
      · rw [if_pos h2]
        obtain ⟨t, ht, hs⟩ := ih seen books
        exact ⟨t, ht, List.Sublist.cons b hs⟩
      · rw [if_neg h2]
        obtain ⟨t, ht, hs⟩ := ih (b.id :: seen) (books ++ [b])
        refine ⟨b :: t, ?_, List.Sublist.cons₂ b hs⟩
        rw [ht, List.append_assoc]
        rfl

/-- C6: the deduplicator consumes records in arrival order — queries in
issue order, OpenLibrary before Google Books within a query — and the
output is an order-preserving sublist of that arrival sequence. -/
theorem runQueries_arrival_order (inputs : List QueryInput) :
    runQueries inputs = dedupeStep (arrivalList inputs) ∧
      List.Sublist (runQueries inputs) (arrivalList inputs) := by
  have h1 : runQueries inputs = dedupeStep (arrivalList inputs) := by
    show (inputs.foldl processQuery ([], [])).2 = dedupeStep (arrivalList inputs)
    rw [foldl_eq_dedupeInto_arrival inputs ([], [])]
    rfl
  refine ⟨h1, ?_⟩
  rw [h1]
  obtain ⟨t, ht, hs⟩ := dedupeInto_sublist (arrivalList inputs) [] []
  show (dedupeInto [] [] (arrivalList inputs)).2.Sublist (arrivalList inputs)
  rw [ht]
  simpa using hs

/-- A record with id "dup", a non-blank title and a blank description. -/
def c5First : CatalogRecord :=
  { id := "dup", source := "openlibrary", title := "Solaris", authors := [],
    description := "", categories := [],
    identifiers := Identifiers.openlibrary none [], publishedYear := none }

/-- A later record sharing the id "dup" but carrying a richer description. -/
def c5Second : CatalogRecord :=
  { id := "dup", source := "google_books", title := "Solaris (annotated)", authors := [],
    description := "X", categories := [],
    identifiers := Identifiers.google (some "g5") [], publishedYear := none }

/-- The first-arriving record of the pair, with its title blanked out. -/
def c5FirstBlank : CatalogRecord := { c5First with title := "" }

/-- C5 counterexample: the claim as stated omits any condition on the first
record's title; when the first record (description "") has a blank title it
is filtered out before deduplication, and the survivor for that id is the
second record, whose description is "X", not "". -/
theorem dedupe_first_wins_counterexample :
    c5FirstBlank.id = c5Second.id ∧ c5FirstBlank.description = "" ∧
      c5Second.description = "X" ∧
      dedupeStep [c5FirstBlank, c5Second] = [c5Second] ∧
      c5Second.description ≠ "" := by
  exact ⟨rfl, rfl, rfl, rfl, by decide⟩

/-- C5 amended: first occurrence wins among records that survive the blank
title filter — if the first record with a given id has a non-blank title,
the output keeps exactly that first record (its description, even when
blank, is kept and the later, richer duplicate is discarded unmerged). -/
theorem dedupe_first_wins (a b : CatalogRecord) (hid : a.id = b.id)
    (hta : a.title ≠ "") (hda : a.description = "") (_hdb : b.description = "X") :
    dedupeStep [a, b] = [a] ∧ a.description = "" := by
  refine ⟨?_, hda⟩
  show (dedupeInto [] [] [a, b]).2 = [a]
  simp only [dedupeInto, if_neg hta]
  rw [if_neg (List.not_mem_nil a.id)]
  by_cases hbt : b.title = ""
  · rw [if_pos hbt]; rfl
  · rw [if_neg hbt, if_pos (by rw [← hid]; exact List.mem_cons_self a.id [])]; rfl

/-- Witness for the amended C5 at the concrete record pair. -/
theorem dedupe_first_wins_witness :
    dedupeStep [c5First, c5Second] = [c5First] ∧ c5First.description = "" :=
  dedupe_first_wins c5First c5Second rfl (by decide) rfl rfl

/-- A Google Books item whose normalization is a perfectly acceptable
record (non-blank title). -/
def c1Item : GItem :=
  { id := some "g1", volumeInfo := some { emptyVolumeInfo with title := some "Tales" } }

/-- A query where the OpenLibrary fetch rejects while the Google Books
fetch succeeds with `c1Item`. -/
def c1Input : QueryInput :=
  (Except.error (), Except.ok { items := some [c1Item] })

/-- C1 counterexample: with the OpenLibrary fetch failing and the Google
Books fetch succeeding for the same query, the Google Books record is NOT
accepted — `Promise.all` rejects the pair and the per-query catch discards
both providers' results, leaving the output empty. -/
theorem ol_failure_loses_google_records :
    runQueries [c1Input] = [] ∧ (normalizeGoogleVolume c1Item).title ≠ "" ∧
      normalizeGoogleVolume c1Item ∉ runQueries [c1Input] := by
  refine ⟨rfl, by decide, fun h => ?_⟩
  have h0 : runQueries [c1Input] = ([] : List CatalogRecord) := rfl
  rw [h0] at h
  exact List.not_mem_nil _ h

/-- C1 amended: a query whose OpenLibrary fetch fails contributes nothing
from either provider, but the run continues — the remaining queries are
processed exactly as if the failed query had not been issued. -/
theorem ol_failure_skips_query_and_continues (gb : Except Unit GBResponse)
    (rest : List QueryInput) :
    runQueries ((Except.error (), gb) :: rest) = runQueries rest := rfl

/-- First non-empty string in a chain of possibly-absent strings (the
wording of claim C2: an absent entry and a present-but-empty entry are
both passed over). -/
def firstNonEmpty : List (Option String) → Option String
  | [] => none
  | x :: xs =>
    match x with
    | some s => if s = "" then firstNonEmpty xs else some s
    | none => firstNonEmpty xs

/-- The id derivation as claim C2 words it: "openlibrary:" followed by the
first NON-EMPTY value among key, cover_edition_key, isbn[0], title. -/
def olIdSpecFirstNonEmpty (doc : OLDoc) : String :=
  "openlibrary:" ++ jsTemplate (firstNonEmpty
    [doc.key, doc.cover_edition_key, doc.isbn.bind List.head?, doc.title])

/-- An OpenLibrary document whose primary key is present but empty while
the alternate edition key is present and non-empty. -/
def c2Doc : OLDoc :=
  { key := some "", cover_edition_key := some "X", isbn := none, title := some "T",
    author_name := none, subject := none, first_publish_year := none }

/-- C2 counterexample: the code's `??` chain takes the first PRESENT
(non-nullish) value, not the first non-empty one — a present empty key
wins, so the derived id is "openlibrary:" and not the claim's
"openlibrary:X". -/
theorem ol_id_not_first_nonempty :
    (normalizeOpenLibraryDoc c2Doc).id = "openlibrary:" ∧
      olIdSpecFirstNonEmpty c2Doc = "openlibrary:X" ∧
      (normalizeOpenLibraryDoc c2Doc).id ≠ olIdSpecFirstNonEmpty c2Doc := by
  exact ⟨rfl, rfl, by decide⟩

/-- C2 amended: the derived id is "openlibrary:" followed by the first
PRESENT (non-nullish) value in the chain key → cover_edition_key →
isbn[0] → title; presence, not non-emptiness, decides, and if all four
are absent the template literal renders "undefined". -/
theorem ol_id_first_present (doc : OLDoc) :
    (∀ k, doc.key = some k →
      (normalizeOpenLibraryDoc doc).id = "openlibrary:" ++ k) ∧
    (doc.key = none → ∀ c, doc.cover_edition_key = some c →
      (normalizeOpenLibraryDoc doc).id = "openlibrary:" ++ c) ∧
    (doc.key = none → doc.cover_edition_key = none →
      ∀ i rest, doc.isbn = some (i :: rest) →
        (normalizeOpenLibraryDoc doc).id = "openlibrary:" ++ i) ∧
    (doc.key = none → doc.cover_edition_key = none →
      doc.isbn.bind List.head? = none → ∀ t, doc.title = some t →
        (normalizeOpenLibraryDoc doc).id = "openlibrary:" ++ t) ∧
    (doc.key = none → doc.cover_edition_key = none →
      doc.isbn.bind List.head? = none → doc.title = none →
        (normalizeOpenLibraryDoc doc).id = "openlibrary:undefined") := by
  refine ⟨?_, ?_, ?_, ?_, ?_⟩
  · intro k hk
    simp [normalizeOpenLibraryDoc, olNativeId, jsTemplate, hk, Option.orElse]
  · intro hk c hc
    simp [normalizeOpenLibraryDoc, olNativeId, jsTemplate, hk, hc, Option.orElse]
  · intro hk hc i rest hi
    simp [normalizeOpenLibraryDoc, olNativeId, jsTemplate, hk, hc, hi, Option.orElse]
  · intro hk hc hi t ht
    simp [normalizeOpenLibraryDoc, olNativeId, jsTemplate, hk, hc, hi, ht, Option.orElse]
  · intro hk hc hi ht
    simp [normalizeOpenLibraryDoc, olNativeId, jsTemplate, hk, hc, hi, ht, Option.orElse]

/-- Witness for the amended C2: at `c2Doc` the present-but-empty primary
key wins the chain. -/
theorem ol_id_first_present_witness :
    (normalizeOpenLibraryDoc c2Doc).id = "openlibrary:" ++ "" :=
  (ol_id_first_present c2Doc).1 "" rfl

/-- An OpenLibrary document with every expected field missing. -/
def emptyOLDoc : OLDoc :=
  { key := none, cover_edition_key := none, isbn := none, title := none,
    author_name := none, subject := none, first_publish_year := none }

/-- A Google Books item with every expected field missing (no id, no
volumeInfo). -/
def emptyGItem : GItem := { id := none, volumeInfo := none }

/-- C7: the normalizers are total functions of the raw record (they are
plain field projections with defaulting, so no exception can arise), and
a missing field degrades to the documented empty default: empty title,
empty author list, empty description, empty category list, null published
year. -/
theorem normalizers_default_on_missing (doc : OLDoc) (item : GItem) :
    (doc.title = none → (normalizeOpenLibraryDoc doc).title = "") ∧
    (doc.author_name = none → (normalizeOpenLibraryDoc doc).authors = []) ∧
    (normalizeOpenLibraryDoc doc).description = "" ∧
    (doc.subject = none → (normalizeOpenLibraryDoc doc).categories = []) ∧
    (doc.first_publish_year = none → (normalizeOpenLibraryDoc doc).publishedYear = none) ∧
    ((item.volumeInfo.getD emptyVolumeInfo).title = none →
      (normalizeGoogleVolume item).title = "") ∧
    ((item.volumeInfo.getD emptyVolumeInfo).authors = none →
      (normalizeGoogleVolume item).authors = []) ∧
    ((item.volumeInfo.getD emptyVolumeInfo).description = none →
      (normalizeGoogleVolume item).description = "") ∧
    ((item.volumeInfo.getD emptyVolumeInfo).categories = none →
      (normalizeGoogleVolume item).categories = []) ∧
    ((item.volumeInfo.getD emptyVolumeInfo).publishedDate = none →
      (normalizeGoogleVolume item).publishedYear = none) := by
  refine ⟨?_, ?_, rfl, ?_, ?_, ?_, ?_, ?_, ?_, ?_⟩ <;> intro h <;>
    simp [normalizeOpenLibraryDoc, normalizeGoogleVolume, h]

/-- Witness for C7 at fully-empty raw records: every field takes its
documented default. -/
theorem normalizers_default_witness :
    (normalizeOpenLibraryDoc emptyOLDoc).title = "" ∧
    (normalizeOpenLibraryDoc emptyOLDoc).authors = [] ∧
    (normalizeOpenLibraryDoc emptyOLDoc).description = "" ∧
    (normalizeOpenLibraryDoc emptyOLDoc).categories = [] ∧
    (normalizeOpenLibraryDoc emptyOLDoc).publishedYear = none ∧
    (normalizeGoogleVolume emptyGItem).title = "" ∧
    (normalizeGoogleVolume emptyGItem).authors = [] ∧
    (normalizeGoogleVolume emptyGItem).description = "" ∧
    (normalizeGoogleVolume emptyGItem).categories = [] ∧
    (normalizeGoogleVolume emptyGItem).publishedYear = none := by
  obtain ⟨h1, h2, h3, h4, h5, h6, h7, h8, h9, h10⟩ :=
    normalizers_default_on_missing emptyOLDoc emptyGItem
  exact ⟨h1 rfl, h2 rfl, h3, h4 rfl, h5 rfl, h6 rfl, h7 rfl, h8 rfl, h9 rfl, h10 rfl⟩

theorem openlibrary_tag_ne_google_tag (s t : String) :
    "openlibrary:" ++ s ≠ "google:" ++ t := by
  intro h
  have h2 : ("openlibrary:" ++ s).data = ("google:" ++ t).data := congrArg String.data h
  rw [String.data_append, String.data_append] at h2
  have e1 : "openlibrary:".data = 'o' :: "penlibrary:".data := rfl
  have e2 : "google:".data = 'g' :: "oogle:".data := rfl
  rw [e1, e2] at h2
  simp only [List.cons_append] at h2
  have h3 : 'o' = 'g' := (List.cons.inj h2).1
  exact absurd h3 (by decide)

/-- C10: each normalized record carries exactly one source and the id's
provider tag determines it — source "openlibrary" iff the id starts with
"openlibrary:", source "google_books" iff the id starts with "google:",
for records produced by either normalizer. -/
theorem source_iff_id_tag (doc : OLDoc) (item : GItem) :
    ((normalizeOpenLibraryDoc doc).source = "openlibrary" ↔
      ∃ t, (normalizeOpenLibraryDoc doc).id = "openlibrary:" ++ t) ∧
    ((normalizeOpenLibraryDoc doc).source = "google_books" ↔
      ∃ t, (normalizeOpenLibraryDoc doc).id = "google:" ++ t) ∧
    ((normalizeGoogleVolume item).source = "google_books" ↔
      ∃ t, (normalizeGoogleVolume item).id = "google:" ++ t) ∧
    ((normalizeGoogleVolume item).source = "openlibrary" ↔
      ∃ t, (normalizeGoogleVolume item).id = "openlibrary:" ++ t) := by
  have holSrc : (normalizeOpenLibraryDoc doc).source = "openlibrary" := rfl
  have hgSrc : (normalizeGoogleVolume item).source = "google_books" := rfl
  refine ⟨?_, ?_, ?_, ?_⟩
  · exact iff_of_true rfl ⟨jsTemplate (olNativeId doc), rfl⟩
  · refine iff_of_false (fun h => absurd (holSrc.symm.trans h) (by decide)) ?_
    rintro ⟨t, ht⟩
    exact openlibrary_tag_ne_google_tag (jsTemplate (olNativeId doc)) t ht
  · exact iff_of_true rfl ⟨jsTemplate item.id, rfl⟩
  · refine iff_of_false (fun h => absurd (hgSrc.symm.trans h) (by decide)) ?_
    rintro ⟨t, ht⟩
    exact openlibrary_tag_ne_google_tag t (jsTemplate item.id) ht.symm

/-- C8: the pipeline is deterministic in its provider responses and the
sink fully replaces the output file — the written content is the
serialization of the run's collection, independent of whatever file
content or directory state existed beforehand, and an immediate re-run
writes the identical bytes. -/
theorem runMain_deterministic_and_replaces (inputs : List QueryInput)
    (fs1 fs2 : DataDirState) :
    (runMain inputs fs1).booksFile = (runMain inputs fs2).booksFile ∧
    (runMain inputs fs1).booksFile = some (booksJson (runQueries inputs)) ∧
    (runMain inputs (runMain inputs fs1)).booksFile = (runMain inputs fs1).booksFile :=
  ⟨rfl, rfl, rfl⟩

end Liria
